import Mathlib

set_option maxRecDepth 20000

/-!
Verification of the scraping-and-reply orchestration engine of the
ai-reply-agent repository, shallowly embedded in Lean.

Strings handled by the JavaScript code are modelled as lists of
characters (`JsStr`); JavaScript string lengths are UTF-16 code-unit
counts, modelled by `utf16Len`.  The SQLite store is modelled as a list
of rows; the language-model capability as a function from the attempt
number to a result.  Timestamps columns that no modelled operation reads
are omitted from the row structures.
-/

namespace AiReplyAgent

/-- JavaScript strings, modelled as lists of characters. -/
abbrev JsStr := List Char

/-- Coerce a Lean string literal to the JavaScript string model. -/
def jstr (s : String) : JsStr := s.data

/-- The set matched by the JavaScript regular-expression class for
whitespace, which is also the set trimmed by the string trim method. -/
def jsWhitespace (c : Char) : Bool :=
  c = ' ' || c = '\t' || c = '\n' || c = '\r' ||
  c.toNat == 11 || c.toNat == 12 || c.toNat == 160 ||
  c.toNat == 0x1680 || (0x2000 ≤ c.toNat && c.toNat ≤ 0x200A) ||
  c.toNat == 0x2028 || c.toNat == 0x2029 || c.toNat == 0x202F ||
  c.toNat == 0x205F || c.toNat == 0x3000 || c.toNat == 0xFEFF

/-- The JavaScript word-character class: ASCII letters, digits and
underscore. -/
def jsWordChar (c : Char) : Bool :=
  (65 ≤ c.toNat && c.toNat ≤ 90) || (97 ≤ c.toNat && c.toNat ≤ 122) ||
  (48 ≤ c.toNat && c.toNat ≤ 57) || c = '_'

/-- Double or single quote, the characters stripped by the cleaner. -/
def isQuoteChar (c : Char) : Bool :=
  c = '"' || c.toNat == 39

/-- JavaScript string length: number of UTF-16 code units. -/
def utf16Len : JsStr → Nat
  | [] => 0
  | c :: rest => (if c.toNat ≥ 0x10000 then 2 else 1) + utf16Len rest

/-- The trim method: drop leading and trailing whitespace. -/
def jsTrim (s : JsStr) : JsStr :=
  ((s.dropWhile jsWhitespace).reverse.dropWhile jsWhitespace).reverse

/-- The endsWith method of JavaScript strings. -/
def jsEndsWith (s suffix : JsStr) : Bool :=
  s.drop (s.length - suffix.length) == suffix

/-- The literal three-dot suffix checked by the validator. -/
def threeDots : JsStr := ['.', '.', '.']

/-- The horizontal-ellipsis character (U+2026). -/
def ellipsisChar : Char := Char.ofNat 0x2026

/-- Match of the anchored retweet pattern: the string starts with the
two-letter retweet marker, upper or lower case, followed by a
whitespace character. -/
def matchesRetweet : JsStr → Bool
  | 'R' :: 'T' :: c :: _ => jsWhitespace c
  | 'r' :: 't' :: c :: _ => jsWhitespace c
  | _ => false

/-- Match of the anchored mention-only pattern: an at-sign, one or more
word characters, then only whitespace to the end.  Because a word
character is never whitespace, the greedy take of word characters is
equivalent to the backtracking regular-expression semantics. -/
def matchesMentionOnly : JsStr → Bool
  | '@' :: rest =>
      !(rest.takeWhile jsWordChar).isEmpty &&
        (rest.dropWhile jsWordChar).all jsWhitespace
  | _ => false

/-- Result object of `validateReply` (src/agent/validation/reply-validator.js). -/
structure ValidationResult where
  isValid : Bool
  errors : List String
  cleanReply : JsStr
deriving DecidableEq, Repr

/-- `validateReply(reply, characterLimit)` from
src/agent/validation/reply-validator.js.  A non-string argument is out
of the model's domain; the falsy-string case is the empty string. -/
def validateReply (reply : JsStr) (characterLimit : Nat := 280) : ValidationResult :=
  if reply.isEmpty then
    { isValid := false, errors := ["Reply must be a non-empty string"],
      cleanReply := [] }
  else
    let trimmedReply := jsTrim reply
    let errors : List String :=
      (if utf16Len trimmedReply == 0 then ["Reply cannot be empty"] else []) ++
      (if utf16Len trimmedReply > characterLimit then
        ["Reply exceeds character limit (" ++ toString (utf16Len trimmedReply) ++
          "/" ++ toString characterLimit ++ ")"] else []) ++
      (if jsEndsWith trimmedReply threeDots || jsEndsWith trimmedReply [ellipsisChar] then
        ["Reply appears to be truncated"] else []) ++
      (if matchesRetweet trimmedReply then ["Reply starts with retweet format"] else []) ++
      (if matchesMentionOnly trimmedReply then ["Reply contains only a mention"] else []) ++
      (if trimmedReply.all jsWhitespace then ["Reply is only whitespace"] else [])
    { isValid := errors.isEmpty, errors := errors, cleanReply := trimmedReply }

/-- `cleanReply(reply)` from src/agent/validation/reply-validator.js:
strip one leading and one trailing quote character, then trim.  The
global anchored replace removes at most one character at each end. -/
def stripLeadingQuote : JsStr → JsStr
  | [] => []
  | c :: rest => if isQuoteChar c then rest else c :: rest

def stripTrailingQuote (s : JsStr) : JsStr :=
  (stripLeadingQuote s.reverse).reverse

def cleanReply (reply : JsStr) : JsStr :=
  jsTrim (stripTrailingQuote (stripLeadingQuote reply))

/-- `checkContentWarnings(reply)` from
src/agent/validation/reply-validator.js.  The punctuation check is the
existence of two adjacent exclamation or question marks; the
capitalization check compares the string with its per-character
uppercase image. -/
def isBangOrQuestion (c : Char) : Bool := c = '!' || c = '?'

def hasDoublePunct : JsStr → Bool
  | a :: b :: rest => (isBangOrQuestion a && isBangOrQuestion b) || hasDoublePunct (b :: rest)
  | _ => false

def checkContentWarnings (reply : JsStr) : List String :=
  if reply.isEmpty then []
  else
    (if hasDoublePunct reply then ["Contains excessive punctuation"] else []) ++
    (if reply.map Char.toUpper == reply && utf16Len reply > 10 then
      ["Contains excessive capitalization"] else []) ++
    (if utf16Len reply < 10 then ["Reply might be too short to be meaningful"] else [])

end AiReplyAgent

namespace AiReplyAgent

/-- Outcome of one call of the language-model capability
(`OpenAIService.generateReply` returns a success flag with the text, or
the error message of a failed request). -/
inductive LMResult where
  | ok (text : JsStr)
  | failed (errorMsg : String)
deriving DecidableEq, Repr

/-- Success payload of `ReplyGenerator.generateReply`: the cleaned
reply, the number of attempts used, and the soft warnings. -/
structure GenSuccess where
  reply : JsStr
  attempts : Nat
  warnings : List String
deriving DecidableEq, Repr

/-- The terminal-failure message thrown by
`ReplyGenerator.generateReply` once every attempt is exhausted. -/
def exhaustedMsg (maxAttempts : Nat) : String :=
  "Failed to generate valid reply after " ++ toString maxAttempts ++ " attempts"

/-- Attempt loop of `ReplyGenerator.generateReply`
(src/agent/processing/reply-generator.js).  `stub` is the
language-model capability, indexed by the attempt number; the second
component of the result counts the language-model calls made.  A failed
capability call consumes one attempt; a success is cleaned and
validated, an invalid result also consumes one attempt; the loop runs
while `attempt ≤ maxAttempts` and throws the terminal error afterwards.
`fuel` is the number of attempts still allowed, so the attempt number
is `maxAttempts - fuel + 1`. -/
def generateReplyGo (stub : Nat → LMResult) (characterLimit maxAttempts : Nat) :
    Nat → Except String GenSuccess × Nat
  | 0 => (Except.error (exhaustedMsg maxAttempts), 0)
  | fuel + 1 =>
    let attempt := maxAttempts - fuel
    match stub attempt with
    | LMResult.failed _ =>
        let rest := generateReplyGo stub characterLimit maxAttempts fuel
        (rest.1, rest.2 + 1)
    | LMResult.ok text =>
        let cleaned := cleanReply text
        let validation := validateReply cleaned characterLimit
        if validation.isValid then
          (Except.ok { reply := cleaned, attempts := attempt,
                       warnings := checkContentWarnings cleaned }, 1)
        else
          let rest := generateReplyGo stub characterLimit maxAttempts fuel
          (rest.1, rest.2 + 1)

/-- `ReplyGenerator.generateReply`, with the call count of the
language-model capability.  `maxAttempts` defaults to 3 as in the
configuration. -/
def generateReply (stub : Nat → LMResult) (characterLimit : Nat := 280)
    (maxAttempts : Nat := 3) : Except String GenSuccess × Nat :=
  generateReplyGo stub characterLimit maxAttempts maxAttempts

/-- The built-in fallback text of the legacy `ReplyAgent`
(src/replyAgent.js), used when no environment override is set. -/
def defaultFallbackReply : JsStr := jstr "Interesting perspective! 🤔"

/-- Attempt loop of the legacy `ReplyAgent.generateReply`
(src/replyAgent.js).  Its validity check is inline: non-empty, within
the character limit, and not ending in the three-dot suffix.  Any
exception — a capability failure or the final throw after the loop — is
caught by the surrounding try/catch, which RETURNS the fallback text
instead of re-raising.  The second component counts capability calls. -/
def replyAgentGo (stub : Nat → LMResult) (characterLimit : Nat) (fallback : JsStr) :
    Nat → Nat → JsStr × Nat
  | _, 0 => (fallback, 0)
  | attempt, fuel + 1 =>
    match stub attempt with
    | LMResult.failed _ => (fallback, 1)
    | LMResult.ok text =>
        let cleaned := cleanReply text
        if utf16Len cleaned > 0 && utf16Len cleaned ≤ characterLimit &&
            !jsEndsWith cleaned threeDots then
          (cleaned, 1)
        else
          let rest := replyAgentGo stub characterLimit fallback (attempt + 1) fuel
          (rest.1, rest.2 + 1)

/-- `ReplyAgent.generateReply` (src/replyAgent.js): three hard-coded
attempts, then fallback substitution via the catch block. -/
def replyAgentGenerateReply (stub : Nat → LMResult) (characterLimit : Nat := 280)
    (fallback : JsStr := defaultFallbackReply) : JsStr × Nat :=
  replyAgentGo stub characterLimit fallback 1 3

end AiReplyAgent

namespace AiReplyAgent

/-- One row of the `tweets` table (src/database/database.js).  Columns
are modelled with `Option` for NULLable text; timestamp columns that no
modelled operation reads back are omitted. -/
structure TweetRow where
  id : Nat
  tweet_id : String
  username : String
  tweet_text : String
  tweet_url : String
  search_keyword : String
  video : Bool
  status : String
  reply_text : Option String
  notes : Option String
  generated_preview : Option String
  manual_reply : Option String
deriving DecidableEq, Repr

/-- The tweets table, in insertion order. -/
abbrev Db := List TweetRow

/-- `Database.tweetExists`: whether some row has the platform id. -/
def tweetExists (db : Db) (tweetId : String) : Bool :=
  db.any (fun r => r.tweet_id == tweetId)

/-- Number of stored rows carrying a platform id (the UNIQUE constraint
of the schema demands this is at most one). -/
def countId (db : Db) (tweetId : String) : Nat :=
  (db.filter (fun r => r.tweet_id == tweetId)).length

/-- One candidate produced by the extraction layer
(`extractAndLogAllTweets`); a missing or empty permalink id is falsy in
the orchestrator's guard. -/
structure Candidate where
  tweetId : Option String
  username : String
  tweetText : String
  hasVideo : Bool
deriving DecidableEq, Repr

/-- Row built by `Database.saveTweet` for a discovered candidate:
inserted with status pending; the row id is the next autoincrement
value. -/
def mkTweetRow (db : Db) (c : Candidate) (tweetId searchKeyword : String) : TweetRow :=
  { id := db.length + 1
    tweet_id := tweetId
    username := c.username
    tweet_text := c.tweetText
    tweet_url := "https://x.com/" ++ c.username ++ "/status/" ++ tweetId
    search_keyword := searchKeyword
    video := c.hasVideo
    status := "pending"
    reply_text := none
    notes := none
    generated_preview := none
    manual_reply := none }

/-- The save-if-new-else-skip step of `TwitterScraper.scrapeTweets`:
check `tweetExists`, insert with `saveTweet` only when absent. -/
def saveIfNew (db : Db) (c : Candidate) (tweetId searchKeyword : String) : Db :=
  if tweetExists db tweetId then db else db ++ [mkTweetRow db c tweetId searchKeyword]

/-- `Database.getCachedPreview`: the first row with the id is read; the
stored preview is returned only when the column is truthy, i.e. present
and not the empty string. -/
def getCachedPreview (db : Db) (tweetId : String) : Option String :=
  match db.find? (fun r => r.tweet_id == tweetId) with
  | some row =>
      match row.generated_preview with
      | some p => if p = "" then none else some p
      | none => none
  | none => none

/-- `Database.getManualReply`: same truthiness behaviour on the
manual-reply column. -/
def getManualReply (db : Db) (tweetId : String) : Option String :=
  match db.find? (fun r => r.tweet_id == tweetId) with
  | some row =>
      match row.manual_reply with
      | some m => if m = "" then none else some m
      | none => none
  | none => none

/-- `Database.savePreview`: update the preview column of the rows
carrying the platform id. -/
def savePreview (db : Db) (tweetId : String) (preview : String) : Db :=
  db.map (fun r => if r.tweet_id = tweetId then
    { r with generated_preview := some preview } else r)

/-- `Database.saveManualReply`: update the manual-reply column of the
rows carrying the platform id. -/
def saveManualReply (db : Db) (tweetId : String) (manualReply : String) : Db :=
  db.map (fun r => if r.tweet_id = tweetId then
    { r with manual_reply := some manualReply } else r)

/-- The manual-reply clearing update (`manual_reply = NULL`). -/
def clearManualReply (db : Db) (tweetId : String) : Db :=
  db.map (fun r => if r.tweet_id = tweetId then
    { r with manual_reply := none } else r)

/-- The reset route (PUT /api/tweets/:id/reset,
src/api/routes/tweets.js): one UPDATE by row id setting the status to
pending and clearing the reply artifacts, with no condition on the
current status. -/
def resetTweet (db : Db) (rowId : Nat) : Db :=
  db.map (fun r => if r.id = rowId then
    { r with status := "pending", manual_reply := none, generated_preview := none }
    else r)

/-- `getReplyText` of reply-service.js: manual override first, else
cached preview, else one fresh generation whose result is cached with
`savePreview`.  `generated` stands for the text the generation pipeline
returns for this post; the third component counts generation calls. -/
def getReplyText (db : Db) (generated : String) (tweetId : String) :
    String × Db × Nat :=
  match getManualReply db tweetId with
  | some m => (m, db, 0)
  | none =>
    match getCachedPreview db tweetId with
    | some p => (p, db, 0)
    | none => (generated, savePreview db tweetId generated, 1)

end AiReplyAgent

namespace AiReplyAgent

/-- Result of processing the candidates of one extraction round in
`TwitterScraper.scrapeTweets`. -/
structure ProcessOut where
  db : Db
  seen : List String
  newCount : Nat
  videoCount : Nat
deriving Repr

/-- The per-candidate body of the scroll loop: a candidate with a
truthy id not yet seen this session is added to the seen set, then
saved if and only if it is not in the store; the per-scroll new-count
and video-count follow the saves. -/
def processCandidates (searchKeyword : String) (db : Db) (seen : List String) :
    List Candidate → ProcessOut
  | [] => { db := db, seen := seen, newCount := 0, videoCount := 0 }
  | c :: rest =>
    match c.tweetId with
    | none => processCandidates searchKeyword db seen rest
    | some tid =>
      if tid = "" ∨ tid ∈ seen then
        processCandidates searchKeyword db seen rest
      else
        let seen' := seen ++ [tid]
        if tweetExists db tid then
          processCandidates searchKeyword db seen' rest
        else
          let db' := db ++ [mkTweetRow db c tid searchKeyword]
          let out := processCandidates searchKeyword db' seen' rest
          { out with newCount := out.newCount + 1,
                     videoCount := out.videoCount + (if c.hasVideo then 1 else 0) }

/-- Session state of `TwitterScraper.scrapeTweets`, including the
counters of its `results` object.  `rounds` counts the extraction
rounds performed. -/
structure ScrapeState where
  db : Db
  seen : List String
  scrollAttempts : Nat
  consecutive : Nat
  totalSaved : Nat
  videoTweets : Nat
  rounds : Nat
  stopReason : Option String
deriving Repr

/-- The stop reason recorded on the consecutive-empty break. -/
def emptyStopReason (consecutive : Nat) : String :=
  toString consecutive ++ " consecutive scrolls with no new tweets"

/-- The scroll loop of `TwitterScraper.scrapeTweets`: while
`scrollAttempts < maxScrollAttempts` and the consecutive empty count is
below `noNewTweetsScrollLimit`, extract, save the new candidates, reset
or bump the consecutive-empty counter, break with the stop reason at
the limit, otherwise scroll and increment `scrollAttempts`.  `extract`
maps the 1-based round number to the visible candidates; the loop makes
at most one iteration per scroll plus one breaking iteration, so fuel
`maxScrollAttempts + 1` never runs out. -/
def scrapeLoopGo (extract : Nat → List Candidate) (searchKeyword : String)
    (maxScrollAttempts noNewTweetsScrollLimit : Nat) :
    Nat → ScrapeState → ScrapeState
  | 0, st => st
  | fuel + 1, st =>
    if st.scrollAttempts < maxScrollAttempts ∧
        st.consecutive < noNewTweetsScrollLimit then
      let round := st.rounds + 1
      let out := processCandidates searchKeyword st.db st.seen (extract round)
      let st' : ScrapeState :=
        { st with db := out.db, seen := out.seen, rounds := round,
                  totalSaved := st.totalSaved + out.newCount,
                  videoTweets := st.videoTweets + out.videoCount }
      if out.newCount > 0 then
        scrapeLoopGo extract searchKeyword maxScrollAttempts noNewTweetsScrollLimit
          fuel { st' with consecutive := 0, scrollAttempts := st'.scrollAttempts + 1 }
      else
        let c := st.consecutive + 1
        if c ≥ noNewTweetsScrollLimit then
          { st' with consecutive := c, stopReason := some (emptyStopReason c) }
        else
          scrapeLoopGo extract searchKeyword maxScrollAttempts noNewTweetsScrollLimit
            fuel { st' with consecutive := c, scrollAttempts := st'.scrollAttempts + 1 }
    else st

/-- `TwitterScraper.scrapeTweets` over a stubbed extractor: run the
scroll loop from a fresh session state over the given store, then fill
in the fallback stop reasons. -/
def scrapeTweets (extract : Nat → List Candidate) (searchKeyword : String)
    (db : Db) (maxScrollAttempts : Nat := 20) (noNewTweetsScrollLimit : Nat := 3) :
    ScrapeState :=
  let st := scrapeLoopGo extract searchKeyword maxScrollAttempts
    noNewTweetsScrollLimit (maxScrollAttempts + 1)
    { db := db, seen := [], scrollAttempts := 0, consecutive := 0,
      totalSaved := 0, videoTweets := 0, rounds := 0, stopReason := none }
  match st.stopReason with
  | some _ => st
  | none =>
    if st.scrollAttempts ≥ maxScrollAttempts then
      { st with stopReason := some ("Reached maximum scroll attempts (" ++
          toString maxScrollAttempts ++ ")") }
    else
      { st with stopReason := some "Scraping stopped manually" }

end AiReplyAgent

namespace AiReplyAgent

/-- One row of a run table (`scraper_runs` of the scraper service, or
the legacy `bot_runs`), reduced to the lifecycle columns. -/
structure RunRow where
  id : Nat
  status : String
  error_message : Option String
deriving DecidableEq, Repr

/-- `Database.startScraperRun` / `Database.startBotRun`: insert a row
with status running, returning the fresh autoincrement id. -/
def startRun (runs : List RunRow) : List RunRow × Nat :=
  (runs ++ [{ id := runs.length + 1, status := "running", error_message := none }],
   runs.length + 1)

/-- `Database.completeScraperRun`: set the status of the row to
completed or failed according to the result's success flag, storing the
error text. -/
def completeScraperRun (runs : List RunRow) (runId : Nat) (success : Bool)
    (errorMsg : Option String) : List RunRow :=
  runs.map (fun r => if r.id = runId then
    { r with status := if success then "completed" else "failed",
             error_message := errorMsg } else r)

/-- `Database.completeBotRun`: unconditionally marks the row
completed (only the success path of its caller reaches it). -/
def completeBotRun (runs : List RunRow) (runId : Nat) : List RunRow :=
  runs.map (fun r => if r.id = runId then { r with status := "completed" } else r)

/-- `runScrapingSession` of the scraper service (scraper-service.js).
`preOk` is false when initialization fails before the run record is
created (then no row exists); `work` is the outcome of everything after
`startScraperRun` — browser, login, search and scroll loop.  Both the
success path and the catch block finalize the run record. -/
def scraperServiceSession (runs : List RunRow) (preOk : Bool)
    (work : Except String Unit) : List RunRow :=
  if preOk then
    let (runs1, runId) := startRun runs
    match work with
    | Except.ok _ => completeScraperRun runs1 runId true none
    | Except.error e => completeScraperRun runs1 runId false (some e)
  else runs

/-- `TwitterScraper.runScrapingSession`
(src/scraper/twitter-scraper.js): `startBotRun` then the session work;
on success `completeBotRun` runs, but the catch block only returns a
failure object — it never finalizes the run row. -/
def twitterScraperSession (runs : List RunRow) (work : Except String Unit) :
    List RunRow :=
  let (runs1, runId) := startRun runs
  match work with
  | Except.ok _ => completeBotRun runs1 runId
  | Except.error _ => runs1

end AiReplyAgent

namespace AiReplyAgent

/-- One status write of the inter-run sleep loop of
`runContinuousScraping` (scraper-service.js): the remaining-seconds
field written at the k-th wake-up, computed from the accumulated
`waited` counter (`waited = k * checkInterval` milliseconds), floored
to seconds. -/
def sleepRemainingWritten (intervalMs checkMs k : Nat) : Nat :=
  (intervalMs - k * checkMs) / 1000

/-- The remaining time a reader would recompute from the stored
absolute next-run timestamp: the timestamp minus the current wall-clock
time, in seconds. -/
def remainingFromTimestamp (nextRunTimestamp now : Nat) : Nat :=
  (nextRunTimestamp - now) / 1000

/-- Trace of the sleep loop: `actualMs n` is the real duration of the
n-th five-second wait (the awaited timer may oversleep).  Each entry
pairs the remaining-seconds value the loop writes into the status
snapshot with the value recomputed from the next-run timestamp at that
moment.  The loop runs while `waited < intervalMs`; `fuel` bounds the
iterations. -/
def sleepLoopTrace (intervalMs checkMs : Nat) (actualMs : Nat → Nat) :
    Nat → Nat → Nat → Nat → List (Nat × Nat)
  | 0, _, _, _ => []
  | fuel + 1, k, waited, now =>
    if waited < intervalMs then
      let k' := k + 1
      let waited' := waited + checkMs
      let now' := now + actualMs k'
      (sleepRemainingWritten intervalMs checkMs k',
       remainingFromTimestamp intervalMs now') ::
        sleepLoopTrace intervalMs checkMs actualMs fuel k' waited' now'
    else []

/-- The sleep phase of `runContinuousScraping`, from the moment the
next-run timestamp `start + intervalMs` is stored (`start = 0` here). -/
def sleepPhase (intervalMs checkMs : Nat) (actualMs : Nat → Nat) (fuel : Nat) :
    List (Nat × Nat) :=
  sleepLoopTrace intervalMs checkMs actualMs fuel 0 0 0

end AiReplyAgent

namespace AiReplyAgent

/-! Concrete fixtures for the scenario claims. -/

/-- A candidate with the given platform id. -/
def mkCandidate (tid : String) (video : Bool := false) : Candidate :=
  { tweetId := some tid, username := "someuser", tweetText := "some tweet text",
    hasVideo := video }

/-- Extractor stub of the C4 scenario: one new post on each of rounds 1
and 2, nothing afterwards. -/
def extractorTwoRounds (round : Nat) : List Candidate :=
  if round = 1 then [mkCandidate "901"]
  else if round = 2 then [mkCandidate "902"] else []

/-- A pre-existing row in status replied, platform id 100. -/
def repliedRow : TweetRow :=
  { id := 1, tweet_id := "100", username := "someuser", tweet_text := "old text",
    tweet_url := "https://x.com/someuser/status/100", search_keyword := "kw",
    video := false, status := "replied", reply_text := some "sent reply",
    notes := none, generated_preview := none, manual_reply := none }

/-- Extractor stub of the C5 scenario: three posts on round 1, one of
them the duplicate of `repliedRow`, nothing on later rounds. -/
def extractorThreeThenNone (round : Nat) : List Candidate :=
  if round = 1 then [mkCandidate "100", mkCandidate "101", mkCandidate "102"]
  else []

/-- Language-model stub whose every call returns the same text ending
in the literal three-dot suffix. -/
def truncatedStub : Nat → LMResult :=
  fun _ => LMResult.ok (jstr "Always a truncated reply...")

/-- Oversleeping timer: every five-second wait actually takes ten
seconds. -/
def oversleepTimer : Nat → Nat := fun _ => 10000

/-- Row fixtures for the reply-text resolution cases: a selected post
with a manual override, one with only a cached preview, one with
neither. -/
def rowWithManual : TweetRow :=
  { repliedRow with
    id := 2
    tweet_id := "201"
    status := "selected"
    reply_text := none
    manual_reply := some "handwritten reply"
    generated_preview := some "cached preview text" }

def rowWithPreviewOnly : TweetRow :=
  { repliedRow with
    id := 3
    tweet_id := "202"
    status := "selected"
    reply_text := none
    manual_reply := none
    generated_preview := some "cached preview text" }

def rowBare : TweetRow :=
  { repliedRow with
    id := 4
    tweet_id := "203"
    status := "selected"
    reply_text := none
    manual_reply := none
    generated_preview := none }

end AiReplyAgent

namespace AiReplyAgent

/-! Helper lemmas: the three-dot suffix survives cleaning and
trimming, so such a reply never validates. -/

theorem dropWhile_append_threeDots (p : Char → Bool) (hp : p '.' = false) :
    ∀ w : JsStr, ∃ w1, List.dropWhile p (w ++ threeDots) = w1 ++ threeDots := by
  intro w
  induction w with
  | nil =>
    exact ⟨[], by simp [threeDots, List.dropWhile, hp]⟩
  | cons c w ih =>
    by_cases hc : p c = true
    · obtain ⟨w1, hw1⟩ := ih
      exact ⟨w1, by simp [List.dropWhile, hc, hw1]⟩
    · exact ⟨c :: w, by simp [List.dropWhile, hc]⟩

theorem jsTrim_append_threeDots (w : JsStr) :
    ∃ w1, jsTrim (w ++ threeDots) = w1 ++ threeDots := by
  obtain ⟨w1, hw1⟩ := dropWhile_append_threeDots jsWhitespace (by decide) w
  refine ⟨w1, ?_⟩
  unfold jsTrim
  rw [hw1]
  have hrev : (w1 ++ threeDots).reverse = '.' :: ('.' :: ('.' :: w1.reverse)) := by
    simp [threeDots]
  rw [hrev]
  have hdot : jsWhitespace '.' = false := by decide
  have : List.dropWhile jsWhitespace ('.' :: ('.' :: ('.' :: w1.reverse))) =
      '.' :: ('.' :: ('.' :: w1.reverse)) := by
    simp [List.dropWhile, hdot]
  rw [this, ← hrev, List.reverse_reverse]

theorem stripLeadingQuote_append_threeDots (w : JsStr) :
    ∃ w1, stripLeadingQuote (w ++ threeDots) = w1 ++ threeDots := by
  cases w with
  | nil => exact ⟨[], by simp [threeDots, stripLeadingQuote]; decide⟩
  | cons c w =>
    by_cases hc : isQuoteChar c = true
    · exact ⟨w, by simp [stripLeadingQuote, hc]⟩
    · exact ⟨c :: w, by simp [stripLeadingQuote, hc]⟩

theorem stripTrailingQuote_append_threeDots (w : JsStr) :
    stripTrailingQuote (w ++ threeDots) = w ++ threeDots := by
  unfold stripTrailingQuote
  have hrev : (w ++ threeDots).reverse = '.' :: ('.' :: ('.' :: w.reverse)) := by
    simp [threeDots]
  rw [hrev]
  have hdot : isQuoteChar '.' = false := by decide
  have : stripLeadingQuote ('.' :: ('.' :: ('.' :: w.reverse))) =
      '.' :: ('.' :: ('.' :: w.reverse)) := by
    simp [stripLeadingQuote, hdot]
  rw [this, ← hrev, List.reverse_reverse]

theorem cleanReply_append_threeDots (u : JsStr) :
    ∃ w, cleanReply (u ++ threeDots) = w ++ threeDots := by
  unfold cleanReply
  obtain ⟨v, hv⟩ := stripLeadingQuote_append_threeDots u
  rw [hv, stripTrailingQuote_append_threeDots]
  exact jsTrim_append_threeDots v

theorem jsEndsWith_append_threeDots (w : JsStr) :
    jsEndsWith (w ++ threeDots) threeDots = true := by
  unfold jsEndsWith
  have h3 : threeDots.length = 3 := by decide
  rw [List.length_append, h3]
  have : w.length + 3 - 3 = w.length := by omega
  rw [this, List.drop_left]
  simp

theorem validateReply_append_threeDots (w : JsStr) (limit : Nat) :
    (validateReply (w ++ threeDots) limit).isValid = false := by
  have hne : (w ++ threeDots).isEmpty = false := by
    cases w <;> simp [threeDots]
  unfold validateReply
  rw [hne]
  simp only [Bool.false_eq_true, if_false]
  obtain ⟨w1, hw1⟩ := jsTrim_append_threeDots w
  rw [hw1, jsEndsWith_append_threeDots]
  simp

theorem validateReply_cleanReply_threeDots (u : JsStr) (limit : Nat) :
    (validateReply (cleanReply (u ++ threeDots)) limit).isValid = false := by
  obtain ⟨w, hw⟩ := cleanReply_append_threeDots u
  rw [hw]
  exact validateReply_append_threeDots w limit

end AiReplyAgent

namespace AiReplyAgent

/-- The attempt loop never makes more language-model calls than it has
attempts left. -/
theorem generateReplyGo_calls_le (stub : Nat → LMResult) (limit maxA : Nat) :
    ∀ fuel, (generateReplyGo stub limit maxA fuel).2 ≤ fuel := by
  intro fuel
  induction fuel with
  | zero => simp [generateReplyGo]
  | succ n ih =>
    simp only [generateReplyGo]
    cases h : stub (maxA - n) with
    | failed msg =>
      simpa using Nat.succ_le_succ ih
    | ok text =>
      simp only []
      split
      · exact Nat.succ_le_succ (Nat.zero_le n)
      · simpa using Nat.succ_le_succ ih

/-- With a capability whose every response ends in the three-dot
suffix, each attempt fails validation, so the loop consumes all its
fuel, makes one call per unit of fuel, and ends in the terminal
error. -/
theorem generateReplyGo_threeDots (stub : Nat → LMResult) (limit maxA : Nat)
    (h : ∀ n, ∃ u, stub n = LMResult.ok (u ++ threeDots)) :
    ∀ fuel, generateReplyGo stub limit maxA fuel =
      (Except.error (exhaustedMsg maxA), fuel) := by
  intro fuel
  induction fuel with
  | zero => rfl
  | succ n ih =>
    obtain ⟨u, hu⟩ := h (maxA - n)
    have hinvalid := validateReply_cleanReply_threeDots u limit
    simp [generateReplyGo, hu, hinvalid, ih]

/-- C1 (amended): the reply generation pipeline
(`ReplyGenerator.generateReply`) makes at most `maxAttempts`
language-model calls per request, and with a capability stub whose
every call returns text ending in the literal three-dot suffix it
raises the terminal failure carrying the attempt count in its message
after exactly `maxAttempts` calls — never fewer, never more — without
substituting any fallback text (the result is the raised error, not a
reply). -/
theorem claim_C1_retry_bound (stub : Nat → LMResult) (characterLimit maxAttempts : Nat) :
    (generateReply stub characterLimit maxAttempts).2 ≤ maxAttempts ∧
    ((∀ n, ∃ u, stub n = LMResult.ok (u ++ threeDots)) →
      generateReply stub characterLimit maxAttempts =
        (Except.error (exhaustedMsg maxAttempts), maxAttempts)) :=
  ⟨generateReplyGo_calls_le stub characterLimit maxAttempts maxAttempts,
   fun h => generateReplyGo_threeDots stub characterLimit maxAttempts h maxAttempts⟩

/-- Witness for C1: the always-truncated stub at the default limit and
the default three attempts. -/
theorem claim_C1_retry_bound_witness :
    generateReply truncatedStub 280 3 = (Except.error (exhaustedMsg 3), 3) :=
  (claim_C1_retry_bound truncatedStub 280 3).2
    (fun _ => ⟨jstr "Always a truncated reply", by
      show LMResult.ok (jstr "Always a truncated reply...") =
        LMResult.ok (jstr "Always a truncated reply" ++ threeDots)
      decide⟩)

/-- Counterexample for C1 as stated: the other cited generation entry
point, the legacy `ReplyAgent.generateReply` (src/replyAgent.js),
catches the exhaustion error and RETURNS the static fallback phrase
instead of raising, after its three language-model calls — so the
cited code does substitute fallback text for an invalid reply. -/
theorem claim_C1_counterexample :
    replyAgentGenerateReply truncatedStub 280 defaultFallbackReply =
      (defaultFallbackReply, 3) ∧
    defaultFallbackReply = jstr "Interesting perspective! 🤔" := by decide

/-- C6: the validator rejects the empty string, a 300-character
string, an ellipsis-terminated string, a retweet-shaped string and a
mention-only string, each with a non-empty error list, and accepts a
genuinely useful reply under the default 280-character limit with an
empty error list. -/
theorem claim_C6_validator_cases :
    ((validateReply (jstr "") 280).isValid = false ∧
      (validateReply (jstr "") 280).errors ≠ []) ∧
    ((validateReply (List.replicate 300 'a') 280).isValid = false ∧
      (validateReply (List.replicate 300 'a') 280).errors ≠ []) ∧
    ((validateReply (jstr "fine…") 280).isValid = false ∧
      (validateReply (jstr "fine…") 280).errors ≠ []) ∧
    ((validateReply (jstr "RT something") 280).isValid = false ∧
      (validateReply (jstr "RT something") 280).errors ≠ []) ∧
    ((validateReply (jstr "@onlyhandle") 280).isValid = false ∧
      (validateReply (jstr "@onlyhandle") 280).errors ≠ []) ∧
    ((validateReply (jstr "A genuinely useful reply under the limit") 280).isValid = true ∧
      (validateReply (jstr "A genuinely useful reply under the limit") 280).errors = []) := by
  decide

/-- C4: with maxScrollAttempts 5 and an empty-scroll limit of 2, an
extractor yielding new posts on rounds 1 and 2 and none afterwards
stops after exactly four extraction rounds — the second consecutive
empty round — with the consecutive-empty-scrolls stop reason, and a
fifth round is never performed. -/
theorem claim_C4_scroll_stop :
    (scrapeTweets extractorTwoRounds "kw" [] 5 2).rounds = 4 ∧
    (scrapeTweets extractorTwoRounds "kw" [] 5 2).stopReason =
      some "2 consecutive scrolls with no new tweets" := by
  decide

/-- Counterexample for C5 as stated: in the cited scenario the loop
breaks out on the consecutive-empty check before the scroll counter is
incremented, so `scrollAttempts` finishes at 1, not 2. -/
theorem claim_C5_counterexample :
    (scrapeTweets extractorThreeThenNone "kw" [repliedRow] 20 1).scrollAttempts = 1 ∧
    ¬ (scrapeTweets extractorThreeThenNone "kw" [repliedRow] 20 1).scrollAttempts = 2 := by
  decide

/-- C5 (amended): starting from a store holding one replied row, with
an extractor returning three posts on round 1 (one the duplicate of the
replied row) and none on round 2, and an empty-scroll limit of 1, the
orchestrator saves exactly two new rows, keeps a single row for the
duplicate id, stops with the consecutive-empty-scrolls reason, and
finishes with `scrollAttempts` equal to 1 (the break precedes the
scroll increment). -/
theorem claim_C5_scenario :
    (scrapeTweets extractorThreeThenNone "kw" [repliedRow] 20 1).totalSaved = 2 ∧
    (scrapeTweets extractorThreeThenNone "kw" [repliedRow] 20 1).db.length = 3 ∧
    countId (scrapeTweets extractorThreeThenNone "kw" [repliedRow] 20 1).db "100" = 1 ∧
    (scrapeTweets extractorThreeThenNone "kw" [repliedRow] 20 1).stopReason =
      some "1 consecutive scrolls with no new tweets" ∧
    (scrapeTweets extractorThreeThenNone "kw" [repliedRow] 20 1).scrollAttempts = 1 := by
  decide

end AiReplyAgent

namespace AiReplyAgent

/-- A store with no row for an id reports the id as absent. -/
theorem tweetExists_eq_false_of_countId_zero (db : Db) (tid : String)
    (h : countId db tid = 0) : tweetExists db tid = false := by
  unfold countId at h
  rw [List.length_eq_zero] at h
  unfold tweetExists
  cases hca : db.any (fun r => r.tweet_id == tid) with
  | false => rfl
  | true =>
    exfalso
    rw [List.any_eq_true] at hca
    obtain ⟨r, hr, hp⟩ := hca
    have hmem : r ∈ db.filter (fun r => r.tweet_id == tid) :=
      List.mem_filter.mpr ⟨hr, hp⟩
    rw [h] at hmem
    exact List.not_mem_nil r hmem

/-- C2: for a platform id with no stored row, running the
save-if-new-else-skip step twice leaves exactly one row for that id,
and every row carrying the id — the initially inserted one — has
status pending. -/
theorem claim_C2_idempotent_save (db : Db) (c : Candidate) (tid kw : String)
    (h : countId db tid = 0) :
    countId (saveIfNew (saveIfNew db c tid kw) c tid kw) tid = 1 ∧
    ∀ r ∈ saveIfNew (saveIfNew db c tid kw) c tid kw,
      r.tweet_id = tid → r.status = "pending" := by
  have h1 : tweetExists db tid = false := tweetExists_eq_false_of_countId_zero db tid h
  have hsave1 : saveIfNew db c tid kw = db ++ [mkTweetRow db c tid kw] := by
    simp [saveIfNew, h1]
  have h2 : tweetExists (db ++ [mkTweetRow db c tid kw]) tid = true := by
    simp [tweetExists, List.any_append, mkTweetRow]
  have hsave2 : saveIfNew (db ++ [mkTweetRow db c tid kw]) c tid kw =
      db ++ [mkTweetRow db c tid kw] := by
    simp [saveIfNew, h2]
  rw [hsave1, hsave2]
  have hfil : db.filter (fun r => r.tweet_id == tid) = [] := by
    unfold countId at h
    rwa [List.length_eq_zero] at h
  constructor
  · unfold countId
    rw [List.filter_append, hfil]
    simp [mkTweetRow]
  · intro r hr ht
    rcases List.mem_append.mp hr with hdb | hnew
    · exfalso
      have hmem : r ∈ db.filter (fun r => r.tweet_id == tid) :=
        List.mem_filter.mpr ⟨hdb, by simp [ht]⟩
      rw [hfil] at hmem
      exact List.not_mem_nil r hmem
    · have : r = mkTweetRow db c tid kw := by simpa using hnew
      rw [this]
      simp [mkTweetRow]

/-- Witness for C2: an empty store and a concrete candidate. -/
theorem claim_C2_idempotent_save_witness :
    countId ([] : Db) "100" = 0 ∧
    (countId (saveIfNew (saveIfNew ([] : Db) (mkCandidate "100") "100" "kw")
        (mkCandidate "100") "100" "kw") "100" = 1 ∧
      ∀ r ∈ saveIfNew (saveIfNew ([] : Db) (mkCandidate "100") "100" "kw")
          (mkCandidate "100") "100" "kw",
        r.tweet_id = "100" → r.status = "pending") :=
  ⟨by decide, claim_C2_idempotent_save [] (mkCandidate "100") "100" "kw" (by decide)⟩

/-- A row update that leaves the platform id unchanged commutes with
the first-row lookup. -/
theorem find?_map_preserving (db : Db) (tid : String) (g : TweetRow → TweetRow)
    (hg : ∀ r, (g r).tweet_id = r.tweet_id) :
    (db.map g).find? (fun r => r.tweet_id == tid) =
      (db.find? (fun r => r.tweet_id == tid)).map g := by
  induction db with
  | nil => rfl
  | cons r l ih =>
    simp only [List.map_cons, List.find?]
    rw [hg r]
    cases hp : (r.tweet_id == tid) with
    | true => rfl
    | false => simpa using ih

/-- C10: saving the empty string as a manual reply or as a cached
preview makes the corresponding lookup report the artifact as absent —
the stored empty string is indistinguishable from a cleared column. -/
theorem claim_C10_empty_string_lookup (db : Db) (tid : String) :
    getManualReply (saveManualReply db tid "") tid = none ∧
    getCachedPreview (savePreview db tid "") tid = none ∧
    getManualReply (saveManualReply db tid "") tid =
      getManualReply (clearManualReply db tid) tid := by
  have hmanual : getManualReply (saveManualReply db tid "") tid = none := by
    unfold getManualReply saveManualReply
    rw [find?_map_preserving db tid _ (fun r => by
      by_cases hc : r.tweet_id = tid <;> simp [hc])]
    cases hfind : db.find? (fun r => r.tweet_id == tid) with
    | none => rfl
    | some row =>
      have hp := List.find?_some hfind
      have htid : row.tweet_id = tid := by simpa using hp
      simp [htid]
  have hpreview : getCachedPreview (savePreview db tid "") tid = none := by
    unfold getCachedPreview savePreview
    rw [find?_map_preserving db tid _ (fun r => by
      by_cases hc : r.tweet_id = tid <;> simp [hc])]
    cases hfind : db.find? (fun r => r.tweet_id == tid) with
    | none => rfl
    | some row =>
      have hp := List.find?_some hfind
      have htid : row.tweet_id = tid := by simpa using hp
      simp [htid]
  have hclear : getManualReply (clearManualReply db tid) tid = none := by
    unfold getManualReply clearManualReply
    rw [find?_map_preserving db tid _ (fun r => by
      by_cases hc : r.tweet_id = tid <;> simp [hc])]
    cases hfind : db.find? (fun r => r.tweet_id == tid) with
    | none => rfl
    | some row =>
      have hp := List.find?_some hfind
      have htid : row.tweet_id = tid := by simpa using hp
      simp [htid]
  exact ⟨hmanual, hpreview, by rw [hmanual, hclear]⟩

/-- C8: reply-text resolution follows the priority manual override,
then cached preview, then exactly one fresh generation whose result is
returned and written into the preview column of the post's row. -/
theorem claim_C8_reply_priority (db : Db) (gen tid : String) :
    (∀ m, getManualReply db tid = some m → getReplyText db gen tid = (m, db, 0)) ∧
    (getManualReply db tid = none →
      ∀ p, getCachedPreview db tid = some p → getReplyText db gen tid = (p, db, 0)) ∧
    (getManualReply db tid = none → getCachedPreview db tid = none →
      getReplyText db gen tid = (gen, savePreview db tid gen, 1) ∧
      ∀ r ∈ savePreview db tid gen, r.tweet_id = tid →
        r.generated_preview = some gen) := by
  refine ⟨?_, ?_, ?_⟩
  · intro m hm
    simp [getReplyText, hm]
  · intro hm p hp
    simp [getReplyText, hm, hp]
  · intro hm hp
    refine ⟨by simp [getReplyText, hm, hp], ?_⟩
    intro r hr htid
    unfold savePreview at hr
    obtain ⟨r0, hr0, hfr⟩ := List.mem_map.mp hr
    by_cases h0 : r0.tweet_id = tid
    · rw [if_pos h0] at hfr
      rw [← hfr]
    · rw [if_neg h0] at hfr
      rw [← hfr] at htid
      exact absurd htid h0

/-- Witness for C8: the three fixture rows, one per priority case. -/
theorem claim_C8_reply_priority_witness :
    getManualReply [rowWithManual] "201" = some "handwritten reply" ∧
    getReplyText [rowWithManual] "fresh text" "201" =
      ("handwritten reply", [rowWithManual], 0) ∧
    getManualReply [rowWithPreviewOnly] "202" = none ∧
    getCachedPreview [rowWithPreviewOnly] "202" = some "cached preview text" ∧
    getReplyText [rowWithPreviewOnly] "fresh text" "202" =
      ("cached preview text", [rowWithPreviewOnly], 0) ∧
    getReplyText [rowBare] "fresh text" "203" =
      ("fresh text", savePreview [rowBare] "203" "fresh text", 1) :=
  ⟨by decide,
   (claim_C8_reply_priority [rowWithManual] "fresh text" "201").1
     "handwritten reply" (by decide),
   by decide, by decide,
   (claim_C8_reply_priority [rowWithPreviewOnly] "fresh text" "202").2.1
     (by decide) "cached preview text" (by decide),
   ((claim_C8_reply_priority [rowBare] "fresh text" "203").2.2
     (by decide) (by decide)).1⟩

end AiReplyAgent

namespace AiReplyAgent

/-- Processing one extraction round only appends rows to the store. -/
theorem processCandidates_db_append (kw : String) :
    ∀ (cands : List Candidate) (db : Db) (seen : List String),
      ∃ tail, (processCandidates kw db seen cands).db = db ++ tail := by
  intro cands
  induction cands with
  | nil => intro db seen; exact ⟨[], by simp [processCandidates]⟩
  | cons c rest ih =>
    intro db seen
    cases hc : c.tweetId with
    | none =>
      simp only [processCandidates, hc]
      exact ih db seen
    | some tid =>
      simp only [processCandidates, hc]
      by_cases hskip : tid = "" ∨ tid ∈ seen
      · rw [if_pos hskip]
        exact ih db seen
      · rw [if_neg hskip]
        by_cases hex : tweetExists db tid = true
        · simp only [hex, if_true]
          exact ih db (seen ++ [tid])
        · simp only [Bool.not_eq_true] at hex
          simp only [hex, Bool.false_eq_true, if_false]
          obtain ⟨t, ht⟩ := ih (db ++ [mkTweetRow db c tid kw]) (seen ++ [tid])
          exact ⟨[mkTweetRow db c tid kw] ++ t, by simp [ht]⟩

/-- The scroll loop only appends rows to the store: every pre-existing
row, whatever its status, is still present and unchanged afterwards. -/
theorem scrapeLoopGo_db_append (extract : Nat → List Candidate) (kw : String)
    (maxA limit : Nat) :
    ∀ (fuel : Nat) (st : ScrapeState),
      ∃ tail, (scrapeLoopGo extract kw maxA limit fuel st).db = st.db ++ tail := by
  intro fuel
  induction fuel with
  | zero => intro st; exact ⟨[], by simp [scrapeLoopGo]⟩
  | succ n ih =>
    intro st
    unfold scrapeLoopGo
    by_cases hguard : st.scrollAttempts < maxA ∧ st.consecutive < limit
    · rw [if_pos hguard]
      obtain ⟨t1, ht1⟩ :=
        processCandidates_db_append kw (extract (st.rounds + 1)) st.db st.seen
      by_cases hnew : (processCandidates kw st.db st.seen (extract (st.rounds + 1))).newCount > 0
      · simp only [hnew, if_true]
        obtain ⟨t2, ht2⟩ := ih _
        exact ⟨t1 ++ t2, by rw [ht2]; simp [ht1]⟩
      · simp only [hnew, if_false]
        by_cases hlim : st.consecutive + 1 ≥ limit
        · rw [if_pos hlim]
          exact ⟨t1, by simpa using ht1⟩
        · rw [if_neg hlim]
          obtain ⟨t2, ht2⟩ := ih _
          exact ⟨t1 ++ t2, by rw [ht2]; simp [ht1]⟩
    · rw [if_neg hguard]
      exact ⟨[], by simp⟩

/-- C7 (amended): the scrape pipeline never changes the status of a
stored post — the scroll loop only appends pending rows, so a replied
or failed row survives unchanged (the generation pipeline takes no
store at all) — while the explicit reset operation moves a post back
to pending regardless of its current status, replied included. -/
theorem claim_C7_status_protection :
    (∀ (extract : Nat → List Candidate) (kw : String) (maxA limit fuel : Nat)
        (st : ScrapeState),
      ∃ tail, (scrapeLoopGo extract kw maxA limit fuel st).db = st.db ++ tail) ∧
    (∀ (db : Db) (rid : Nat) (r : TweetRow), r ∈ db → r.id = rid →
      { r with status := "pending", manual_reply := none, generated_preview := none }
        ∈ resetTweet db rid) := by
  constructor
  · intro extract kw maxA limit fuel st
    exact scrapeLoopGo_db_append extract kw maxA limit fuel st
  · intro db rid r hr hid
    unfold resetTweet
    exact List.mem_map.mpr ⟨r, hr, by rw [if_pos hid]⟩

/-- Witness for C7: a store holding one replied row and the concrete
reset call on its id. -/
theorem claim_C7_status_protection_witness :
    repliedRow ∈ ([repliedRow] : Db) ∧ repliedRow.id = 1 ∧
    { repliedRow with
        status := "pending", manual_reply := none, generated_preview := none }
      ∈ resetTweet [repliedRow] 1 :=
  ⟨by decide, by decide,
   claim_C7_status_protection.2 [repliedRow] 1 repliedRow (by decide) (by decide)⟩

/-- Counterexample for C7 as stated: the reset route filters only by
row id, so it resets a replied post to pending — the claim's
restriction of reset to non-replied statuses does not hold. -/
theorem claim_C7_counterexample :
    repliedRow.status = "replied" ∧
    (resetTweet [repliedRow] 1).map TweetRow.status = ["pending"] := by decide

/-- Finalizing a freshly started run record updates exactly that
record and leaves the earlier rows untouched. -/
theorem completeScraperRun_append_fresh (runs : List RunRow) (row : RunRow)
    (success : Bool) (err : Option String)
    (hfresh : ∀ r ∈ runs, r.id ≠ row.id) :
    completeScraperRun (runs ++ [row]) row.id success err =
      runs ++ [{ row with
        status := if success then "completed" else "failed", error_message := err }] := by
  unfold completeScraperRun
  rw [List.map_append]
  congr 1
  · conv_rhs => rw [← List.map_id runs]
    apply List.map_congr_left
    intro r hr
    rw [if_neg (hfresh r hr)]
    rfl
  · simp

/-- C3 (amended): in the scraper service, however the session work
after the run record is created ends — success or exception — the run
record transitions exactly once to a terminal state, completed or
failed, and is never left running; in `TwitterScraper.runScrapingSession`
this guarantee fails (see the counterexample). -/
theorem claim_C3_run_finalized (runs : List RunRow) (work : Except String Unit)
    (hfresh : ∀ r ∈ runs, r.id < runs.length + 1) :
    ∃ row, scraperServiceSession runs true work = runs ++ [row] ∧
      row.status ≠ "running" ∧
      (row.status = "completed" ∨ row.status = "failed") := by
  have hne : ∀ r ∈ runs, r.id ≠
      ({ id := runs.length + 1, status := "running", error_message := none } : RunRow).id := by
    intro r hr
    have := hfresh r hr
    simp only []
    omega
  cases work with
  | ok u =>
    refine ⟨{ id := runs.length + 1, status := "completed", error_message := none },
      ?_, by simp, Or.inl rfl⟩
    unfold scraperServiceSession startRun
    simp only [if_true]
    rw [completeScraperRun_append_fresh runs _ true none hne]
    simp
  | error e =>
    refine ⟨{ id := runs.length + 1, status := "failed", error_message := some e },
      ?_, by simp, Or.inr rfl⟩
    unfold scraperServiceSession startRun
    simp only [if_true]
    rw [completeScraperRun_append_fresh runs _ false (some e) hne]
    simp

/-- Witness for C3: an empty run table and a session whose work throws. -/
theorem claim_C3_run_finalized_witness :
    (∀ r ∈ ([] : List RunRow), r.id < 1) ∧
    ∃ row, scraperServiceSession [] true (Except.error "browser crashed") =
        [] ++ [row] ∧
      row.status ≠ "running" ∧
      (row.status = "completed" ∨ row.status = "failed") :=
  ⟨by simp,
   claim_C3_run_finalized [] (Except.error "browser crashed") (by simp)⟩

/-- Counterexample for C3 as stated:
`TwitterScraper.runScrapingSession` starts a run record and, when the
session work throws, its catch block returns a failure object without
finalizing the record — the row is left in status running. -/
theorem claim_C3_counterexample :
    twitterScraperSession [] (Except.error "browser crashed mid-session") =
      [{ id := 1, status := "running", error_message := none }] := by decide

/-- The remaining-seconds values the sleep loop writes do not depend
on the actual durations of the awaited timers: they come from the
accumulated waited counter alone. -/
theorem sleepLoopTrace_written_indep (intervalMs checkMs : Nat)
    (d1 d2 : Nat → Nat) :
    ∀ (fuel k waited now1 now2 : Nat),
      (sleepLoopTrace intervalMs checkMs d1 fuel k waited now1).map Prod.fst =
      (sleepLoopTrace intervalMs checkMs d2 fuel k waited now2).map Prod.fst := by
  intro fuel
  induction fuel with
  | zero => intros; rfl
  | succ n ih =>
    intro k waited now1 now2
    unfold sleepLoopTrace
    by_cases hw : waited < intervalMs
    · rw [if_pos hw, if_pos hw]
      simp only [List.map_cons]
      rw [ih]
    · rw [if_neg hw, if_neg hw]

/-- C9 (amended): the remaining-seconds countdown written into the
status snapshot during the inter-run sleep is derived from the
accumulated waited counter (`intervalMs - k * checkInterval`), not
recomputed from the stored absolute next-run timestamp: the written
values are identical for any two behaviours of the wall clock, so they
do not self-correct when wall-clock time and loop iterations diverge
(the snapshot does also store the absolute timestamp itself). -/
theorem claim_C9_countdown_from_counter (intervalMs checkMs fuel : Nat)
    (d1 d2 : Nat → Nat) :
    (sleepPhase intervalMs checkMs d1 fuel).map Prod.fst =
      (sleepPhase intervalMs checkMs d2 fuel).map Prod.fst :=
  sleepLoopTrace_written_indep intervalMs checkMs d1 d2 fuel 0 0 0 0

/-- Counterexample for C9 as stated: with a thirty-second run interval
checked every five seconds, a timer that oversleeps to ten seconds
makes the first written countdown 55 seconds while the value recomputed
from the next-run timestamp is 50 — the written countdown is not the
recomputed one. -/
theorem claim_C9_counterexample :
    (sleepPhase 60000 5000 oversleepTimer 12).head? = some (55, 50) ∧
    (55 : Nat) ≠ 50 := by decide

end AiReplyAgent
